import Mathlib

set_option maxHeartbeats 1000000

/-!
Verification of the loan lifecycle and fee computation engine of the
godgraceenterprise back-office API.

The embedding follows the source files under src/. JavaScript numbers are
modelled as exact rationals; the two-decimal rounding that the source
performs with toFixed(2) and Math.round(x*100)/100 is modelled by
`round2` (round to nearest, ties up, which is exactly Math.round and
agrees with toFixed on all values appearing in the claims). The isNaN
guards of the source are unreachable in the exact-arithmetic model.

The current revision of the Loan model (the one the claims cite) is the
loan schema with the LoanConfig lookup given in src/models/Savings.js;
src/models/Loan.js holds an earlier revision of the same hook which
agrees on the derived-amount block. Dates are modelled as integers
(days); the calendar arithmetic of the JavaScript Date library is passed
in as a function argument where the source calls setMonth or addDuration,
since the Date library is a platform collaborator, not repository code.

Dimensional tags on metric events (branch, officer, client, group,
provenance extras) are pass-through data never consulted by any claim;
the event model keeps the metric name, signed value, date and loan
reference.
-/

namespace GodGrace

/-- Two-decimal monetary rounding: Math.round of x*100 divided by 100. -/
def round2 (x : ℚ) : ℚ := (round (x * 100) : ℚ) / 100

lemma round2_int (x : ℚ) (n : ℤ) (h : x * 100 = (n : ℚ)) : round2 x = (n : ℚ) / 100 := by
  rw [round2, h, round_intCast]

inductive Currency
  | USD
  | LRD
deriving DecidableEq

inductive LoanType
  | express
  | group
  | individual
deriving DecidableEq

inductive LoanStatus
  | pending
  | active
  | paid
  | defaulted
deriving DecidableEq

inductive PaymentPlan
  | weekly
  | biWeekly
  | monthly
deriving DecidableEq

inductive DurationUnit
  | days
  | weeks
  | months
  | years
deriving DecidableEq

/-- One embedded repayment entry (loanCollectionSchema in src/models/Savings.js). -/
structure Collection where
  memberName : String
  loanAmount : ℚ
  weeklyAmount : ℚ
  fieldCollection : ℚ
  advancePayment : ℚ
  fieldBalance : ℚ
  currency : Currency
  collectionDate : ℤ
deriving DecidableEq

/-- The Loan aggregate (loanSchema in src/models/Savings.js), restricted to the
fields the validation hook, the status transition, the collection and
distribution ledgers and the recalculation engine read or write. Fields the
hook may leave unset are Options; createdAt and updatedAt are total because
mongoose timestamps always set them. -/
structure Loan where
  id : ℕ
  branchName : String
  branchCode : String
  createdByEmail : Option String
  loanType : LoanType
  group : Option ℕ
  clients : List ℕ
  client : Option ℕ
  loanDurationNumber : Option ℚ
  loanDurationUnit : Option DurationUnit
  disbursementDate : Option ℤ
  collectionStartDate : Option ℤ
  endingDate : Option ℤ
  weeklyInstallment : Option ℚ
  loanAmount : ℚ
  interestRate : ℚ
  currency : Currency
  status : LoanStatus
  paymentPlan : Option PaymentPlan
  processingFeePercent : Option ℚ
  processingFeeAmount : ℚ
  formFeeAmount : Option ℚ
  inspectionFeeAmount : Option ℚ
  collateralCashPercent : Option ℚ
  collateralCashAmount : ℚ
  netDisbursedAmount : ℚ
  isReturningClient : Bool
  loanOfficerName : String
  totalRealization : ℚ
  collections : List Collection
  guarantors : List String
  totalAmountToBePaid : Option ℚ
  cashAmountCredited : Option ℚ
  collateralItemValue : Option ℚ
  createdAt : ℤ
  updatedAt : ℤ
deriving DecidableEq

/-- Per-loan-type fee configuration (loanTypeConfigSchema in src/models/LoanConfig.js). -/
structure LoanTypeConfig where
  processingFeePercent : Option ℚ
  collateralCashPercent : Option ℚ
  formFeeAmountLRD : Option ℚ
  formFeeAmountLRDNew : Option ℚ
  formFeeAmountLRDReturning : Option ℚ
  inspectionFeeDefault : Option ℚ
deriving DecidableEq

/-- A LoanConfig document (src/models/LoanConfig.js); branchCode absent means global. -/
structure LoanConfigDoc where
  branchCode : Option String
  express : Option LoanTypeConfig
  individual : Option LoanTypeConfig
  group : Option LoanTypeConfig
deriving DecidableEq

/-- The per-type sub-config the hook reads: configDoc[typeKey] in the source. -/
def typeCfgOf (cfg : Option LoanConfigDoc) (t : LoanType) : Option LoanTypeConfig :=
  cfg.bind fun c =>
    match t with
    | .express => c.express
    | .individual => c.individual
    | .group => c.group

/-- The invalidate calls of the pre-validate hook in src/models/Savings.js
(lines 319 to 381): branch presence, category-specific reference rules, the
guarantor rule and the paymentPlan requirement. The hook mutates only fields
none of these checks read, so the error list depends on the input alone. -/
def validateErrors (l : Loan) : List String :=
  (if l.branchName = "" ∨ l.branchCode = "" then ["branchName"] else []) ++
  (if l.loanType = .individual then
    (if l.client = none then ["client"] else []) ++
    (if l.group = none ∧ l.guarantors.length < 1 then ["guarantors"] else [])
  else []) ++
  (if l.loanType = .group then
    (if l.group = none then ["group"] else []) ++
    (if l.clients = [] then ["clients"] else [])
  else []) ++
  (if (l.loanType = .group ∨ l.loanType = .individual) ∧ l.paymentPlan = none
    then ["paymentPlan"] else [])

/-- Express loans force duration to exactly one month (src/models/Savings.js
lines 326 to 334). -/
def applyExpressRules (l : Loan) : Loan :=
  if l.loanType = .express then
    { l with loanDurationNumber := some 1, loanDurationUnit := some .months }
  else l

/-- Ending date auto-calculation when missing (src/models/Savings.js lines 354
to 357); addDur stands for the addDuration helper over JavaScript dates. -/
def applyEndingDate (addDur : ℤ → ℚ → DurationUnit → ℤ) (l : Loan) : Loan :=
  match l.endingDate, l.disbursementDate, l.loanDurationUnit with
  | none, some d, some u =>
    if l.loanDurationNumber.getD 0 ≠ 0 then
      { l with endingDate := some (addDur d (l.loanDurationNumber.getD 0) u) }
    else l
  | _, _, _ => l

/-- Fee-related defaults from the resolved configuration with hard-coded
fallbacks (src/models/Savings.js lines 383 to 415). -/
def applyFeeDefaults (cfg : Option LoanConfigDoc) (l : Loan) : Loan :=
  let typeCfg := typeCfgOf cfg l.loanType
  let l1 :=
    if l.processingFeePercent = none then
      let fallback : ℚ :=
        match l.loanType with
        | .group => 3
        | .individual => if l.group.isSome then 3 else 4
        | .express => 0
      let pct := (typeCfg.bind (·.processingFeePercent)).getD fallback
      { l with processingFeePercent := some pct }
    else l
  let l2 :=
    if l1.collateralCashPercent = none ∧
        (l1.loanType = .group ∨ l1.loanType = .individual) then
      let fallback : ℚ := if l1.loanType = .individual then 10 else 8
      let pct := (typeCfg.bind (·.collateralCashPercent)).getD fallback
      { l1 with collateralCashPercent := some pct }
    else l1
  let l3 :=
    if (l2.loanType = .group ∨ l2.loanType = .individual) ∧ l2.formFeeAmount = none then
      if l2.currency ≠ .LRD then { l2 with formFeeAmount := some 0 }
      else if l2.loanType = .group ∨ l2.group.isSome then
        let fee := ((cfg.bind (·.group)).bind (·.formFeeAmountLRD)).getD 200
        { l2 with formFeeAmount := some fee }
      else
        let feeRet := ((cfg.bind (·.individual)).bind (·.formFeeAmountLRDReturning)).getD 400
        let feeNew := ((cfg.bind (·.individual)).bind (·.formFeeAmountLRDNew)).getD 500
        { l2 with formFeeAmount := some (if l2.isReturningClient then feeRet else feeNew) }
    else l2
  if l3.inspectionFeeAmount = none then
    match typeCfg.bind (·.inspectionFeeDefault) with
    | some v => { l3 with inspectionFeeAmount := some v }
    | none => l3
  else l3

/-- Derived-amount block of the hook (src/models/Savings.js lines 417 to 442):
processing and collateral amounts from the resolved percentages, the net
disbursed amount, and the totalAmountToBePaid and cashAmountCredited
defaults. -/
def computeDerivedAmounts (l : Loan) : Loan :=
  let amt := l.loanAmount
  let procAmt := round2 (amt * (l.processingFeePercent.getD 0 / 100))
  let collateralAmt := round2 (amt * (l.collateralCashPercent.getD 0 / 100))
  let net := round2 (amt - procAmt - l.formFeeAmount.getD 0 - l.inspectionFeeAmount.getD 0)
  let l4 := { l with
    processingFeeAmount := procAmt
    collateralCashAmount := collateralAmt
    netDisbursedAmount := net }
  let total := round2 (amt * (1 + l4.interestRate / 100))
  let l5 :=
    if l4.totalAmountToBePaid = none then { l4 with totalAmountToBePaid := some total }
    else l4
  if l5.cashAmountCredited = none then
    { l5 with cashAmountCredited := some l5.netDisbursedAmount }
  else l5

/-- The field mutations of the pre-validate hook, in source order. -/
def loanValidateUpdate (addDur : ℤ → ℚ → DurationUnit → ℤ)
    (cfg : Option LoanConfigDoc) (l : Loan) : Loan :=
  computeDerivedAmounts (applyFeeDefaults cfg (applyEndingDate addDur (applyExpressRules l)))

/-- The whole hook: updated document plus invalidated field paths. -/
def loanValidate (addDur : ℤ → ℚ → DurationUnit → ℤ)
    (cfg : Option LoanConfigDoc) (l : Loan) : Loan × List String :=
  (loanValidateUpdate addDur cfg l, validateErrors l)

lemma computeDerivedAmounts_net (l : Loan) :
    (computeDerivedAmounts l).netDisbursedAmount =
      round2 ((computeDerivedAmounts l).loanAmount
        - (computeDerivedAmounts l).processingFeeAmount
        - (computeDerivedAmounts l).formFeeAmount.getD 0
        - (computeDerivedAmounts l).inspectionFeeAmount.getD 0) := by
  unfold computeDerivedAmounts
  dsimp only
  split <;> split <;> rfl

/-- C1: after every run of the loan validation hook, the persisted
netDisbursedAmount equals round2 of principal minus the persisted processing,
form and inspection fee amounts, for every input loan and configuration. The
non-finite coercion to zero of the source is unreachable in the exact
rational model. -/
theorem net_disbursed_after_validate (addDur : ℤ → ℚ → DurationUnit → ℤ)
    (cfg : Option LoanConfigDoc) (l : Loan) :
    ((loanValidate addDur cfg l).1).netDisbursedAmount =
      round2 (((loanValidate addDur cfg l).1).loanAmount
        - ((loanValidate addDur cfg l).1).processingFeeAmount
        - ((loanValidate addDur cfg l).1).formFeeAmount.getD 0
        - ((loanValidate addDur cfg l).1).inspectionFeeAmount.getD 0) := by
  unfold loanValidate loanValidateUpdate
  exact computeDerivedAmounts_net (applyFeeDefaults cfg (applyEndingDate addDur (applyExpressRules l)))

/-- A concrete individual standalone loan: principal 10000 LRD at 10 percent,
new client, no inspection fee, no explicit fee fields, used to evaluate the
validation hook on the scenario of the spec. -/
def c6loan : Loan :=
  { id := 6
    branchName := "Main"
    branchCode := "MB"
    createdByEmail := some "officer@example.com"
    loanType := .individual
    group := none
    clients := []
    client := some 61
    loanDurationNumber := some 12
    loanDurationUnit := some .weeks
    disbursementDate := some 100
    collectionStartDate := none
    endingDate := none
    weeklyInstallment := none
    loanAmount := 10000
    interestRate := 10
    currency := .LRD
    status := .pending
    paymentPlan := some .weekly
    processingFeePercent := none
    processingFeeAmount := 0
    formFeeAmount := none
    inspectionFeeAmount := none
    collateralCashPercent := none
    collateralCashAmount := 0
    netDisbursedAmount := 0
    isReturningClient := false
    loanOfficerName := "Officer A"
    totalRealization := 0
    collections := []
    guarantors := ["G1"]
    totalAmountToBePaid := none
    cashAmountCredited := none
    collateralItemValue := none
    createdAt := 90
    updatedAt := 90 }

/-- C6: creating an individual loan with principal 10000 LRD, interest 10
percent, no group link, a new client, no inspection fee and no configuration
override derives processingFeePercent 4, processingFeeAmount 400,
collateralCashPercent 10, collateralCashAmount 1000, formFeeAmount 500,
netDisbursedAmount 9100 and totalAmountToBePaid 11000. -/
theorem individual_loan_scenario_fees :
    (loanValidateUpdate (fun d _ _ => d) none c6loan).processingFeePercent = some 4 ∧
    (loanValidateUpdate (fun d _ _ => d) none c6loan).processingFeeAmount = 400 ∧
    (loanValidateUpdate (fun d _ _ => d) none c6loan).collateralCashPercent = some 10 ∧
    (loanValidateUpdate (fun d _ _ => d) none c6loan).collateralCashAmount = 1000 ∧
    (loanValidateUpdate (fun d _ _ => d) none c6loan).formFeeAmount = some 500 ∧
    (loanValidateUpdate (fun d _ _ => d) none c6loan).netDisbursedAmount = 9100 ∧
    (loanValidateUpdate (fun d _ _ => d) none c6loan).totalAmountToBePaid = some 11000 := by
  have h400 : round2 (400 : ℚ) = 400 := by
    rw [round2_int _ 40000 (by norm_num)]
    norm_num
  have h1000 : round2 (1000 : ℚ) = 1000 := by
    rw [round2_int _ 100000 (by norm_num)]
    norm_num
  have h9100 : round2 (9100 : ℚ) = 9100 := by
    rw [round2_int _ 910000 (by norm_num)]
    norm_num
  have h11000 : round2 (11000 : ℚ) = 11000 := by
    rw [round2_int _ 1100000 (by norm_num)]
    norm_num
  refine ⟨?_, ?_, ?_, ?_, ?_, ?_, ?_⟩ <;>
    (simp +decide [loanValidateUpdate, applyExpressRules, applyEndingDate, applyFeeDefaults,
        computeDerivedAmounts, typeCfgOf, c6loan] <;>
      norm_num [h400, h1000, h9100, h11000])

/-- C7: for individual loans without a group link the hook demands at least
one guarantor: an empty guarantor list invalidates the save, while one
guarantor together with the other required fields passes validation with no
errors; for individual loans linked to a group the guarantor check is
skipped entirely. -/
lemma mem_ite_nil {α : Type} {c : Prop} [Decidable c] {xs : List α} {a : α}
    (h : a ∈ if c then xs else []) : c ∧ a ∈ xs := by
  split at h
  · exact ⟨by assumption, h⟩
  · exact absurd h (List.not_mem_nil a)

theorem individual_guarantor_rule (l : Loan)
    (hty : l.loanType = LoanType.individual) :
    (l.group = none → l.guarantors = [] → "guarantors" ∈ validateErrors l) ∧
    (l.group = none → 1 ≤ l.guarantors.length → "guarantors" ∉ validateErrors l) ∧
    (l.group.isSome → "guarantors" ∉ validateErrors l) ∧
    (l.branchName ≠ "" → l.branchCode ≠ "" → l.client.isSome → l.paymentPlan.isSome →
      (l.group = none → 1 ≤ l.guarantors.length) → validateErrors l = []) := by
  refine ⟨?_, ?_, ?_, ?_⟩
  · intro hg hguar
    unfold validateErrors
    rw [hty]
    simp [hg, hguar]
  · intro hg hlen hmem
    unfold validateErrors at hmem
    rw [hty] at hmem
    rcases List.mem_append.1 hmem with h | h
    · rcases List.mem_append.1 h with h | h
      · rcases List.mem_append.1 h with h | h
        · exact absurd (mem_ite_nil h).2 (by decide)
        · rw [if_pos rfl] at h
          rcases List.mem_append.1 h with h | h
          · exact absurd (mem_ite_nil h).2 (by decide)
          · have hc := (mem_ite_nil h).1
            omega
      · exact absurd (mem_ite_nil h).1 (by decide)
    · exact absurd (mem_ite_nil h).2 (by decide)
  · intro hsome hmem
    unfold validateErrors at hmem
    rw [hty] at hmem
    rcases List.mem_append.1 hmem with h | h
    · rcases List.mem_append.1 h with h | h
      · rcases List.mem_append.1 h with h | h
        · exact absurd (mem_ite_nil h).2 (by decide)
        · rw [if_pos rfl] at h
          rcases List.mem_append.1 h with h | h
          · exact absurd (mem_ite_nil h).2 (by decide)
          · have hc := (mem_ite_nil h).1
            rw [hc.1] at hsome
            exact absurd hsome (by decide)
      · exact absurd (mem_ite_nil h).1 (by decide)
    · exact absurd (mem_ite_nil h).2 (by decide)
  · intro hbn hbc hcl hpp hguar
    unfold validateErrors
    rw [hty]
    rw [if_neg (by rintro (h | h) <;> simp_all)]
    rw [if_pos rfl]
    rw [if_neg (fun h => by rw [h] at hcl; exact absurd hcl (by decide))]
    rw [if_neg (fun hc => by have := hguar hc.1; omega)]
    rw [if_neg (by decide)]
    rw [if_neg (fun hc => by rw [hc.2] at hpp; exact absurd hpp (by decide))]
    rfl

/-- Witness for C7 at concrete loans: the scenario loan with one guarantor
passes with no validation errors, and the same loan with no guarantors is
invalidated on the guarantors path. -/
theorem individual_guarantor_rule_witness :
    c6loan.loanType = LoanType.individual ∧
    validateErrors c6loan = [] ∧
    "guarantors" ∈ validateErrors { c6loan with guarantors := [] } := by
  refine ⟨rfl, ?_, ?_⟩
  · exact (individual_guarantor_rule c6loan rfl).2.2.2 (by decide) (by decide)
      (by decide) (by decide) (fun _ => by decide)
  · exact ((individual_guarantor_rule { c6loan with guarantors := [] } rfl).1)
      (by decide) (by decide)

/-- An entry of the append-only metric event store (src/models/Metric.js is
consumed through recordMany). Dimensional tags other than the loan reference
are pass-through provenance the claims never consult and are omitted. -/
structure MetricEvent where
  metric : String
  value : ℚ
  date : ℤ
  loan : Option ℕ
deriving DecidableEq

/-- The identity document the userIdentity middleware attaches to a request. -/
structure User where
  role : String
  email : String
  username : String
deriving DecidableEq

/-- Character lowering, modelling JavaScript toLowerCase on the ASCII role
and email strings the controllers compare. -/
def lowerChar (c : Char) : Char := c.toLower

/-- String lowering over the character list. -/
def lowerStr (s : String) : String := String.mk (s.data.map lowerChar)

/-- Whitespace test for the trim model (the common ASCII whitespace). -/
def isWsChar (c : Char) : Bool := c = ' ' || c = '\t' || c = '\n' || c = '\r'

/-- String trim from both ends, modelling JavaScript trim. -/
def trimStr (s : String) : String :=
  String.mk (((s.data.dropWhile isWsChar).reverse.dropWhile isWsChar).reverse)

/-- Role strings are trimmed and lowercased before comparison throughout the
controllers. -/
def normRole (s : String) : String := lowerStr (trimStr s)

/-- Loan officers and field agents are restricted to their own records. -/
def isRestrictedRole (r : String) : Bool :=
  (normRole r == "loan officer") || (normRole r == "field agent")

/-- Only admins and branch heads may approve or distribute loans. -/
def isApproverRole (r : String) : Bool :=
  (normRole r == "admin") || (normRole r == "branch head")

/-- Ownership check used by every restricted-role guard: creator email
(lowercased) or officer username matches. -/
def ownsLoanB (u : User) (l : Loan) : Bool :=
  (match l.createdByEmail with
    | some e => lowerStr e == lowerStr u.email
    | none => false) || (l.loanOfficerName == u.username)

/-- Modelled from the spec: utils/metrics.js is not under src. Section 4.3
says activation emits an interestCollected event for the planned interest of
the loan, i.e. principal times the interest rate percentage, rounded to two
decimals. -/
def computeInterestForLoan (l : Loan) : ℚ := round2 (l.loanAmount * (l.interestRate / 100))

/-- Modelled from the spec: utils/metrics.js is not under src. The collateral
value of a loan is the estimated value of its collateral item, zero when
absent. -/
def collateralValueFromLoan (l : Loan) : ℚ := l.collateralItemValue.getD 0

/-- Modelled from the spec: utils/metrics.js is not under src. recordMany
appends a batch of events to the append-only store. -/
def recordMany (store : List MetricEvent) (events : List MetricEvent) : List MetricEvent :=
  store ++ events

/-- One transaction embedded in a savings account (src/models/Savings.js). -/
structure SavingsTx where
  date : ℤ
  savingAmount : ℚ
  withdrawalAmount : ℚ
  balance : ℚ
  currency : Currency
  branchName : String
  branchCode : String
deriving DecidableEq

/-- An individual savings account (src/models/Savings.js), restricted to the
fields the collateral auto-deposit reads and writes. -/
structure SavingsAcct where
  client : ℕ
  branchName : String
  branchCode : String
  loanCycle : ℕ
  currentBalance : ℚ
  currency : Currency
  transactions : List SavingsTx
deriving DecidableEq

/-- The observable outcome of one setLoanStatus request: the saved loan, the
metric events recorded, the savings account after the collateral
auto-deposit (unchanged input account when no deposit happened), and whether
a loan agreement document was created. -/
structure StatusResult where
  loan : Loan
  events : List MetricEvent
  savings : Option SavingsAcct
  agreementCreated : Bool
deriving DecidableEq

/-- Duration to approximate weeks (the toWeeks helper repeated in
src/controllers/loanController.js): days are divided by 7 and ceiled, months
count 4 weeks, years 52, all floored at zero; a missing unit falls through to
the raw number. -/
def toWeeksQ (n : Option ℚ) (u : Option DurationUnit) : ℚ :=
  let num := n.getD 0
  match u with
  | some .days => max (⌈num / 7⌉ : ℚ) 0
  | some .weeks => max num 0
  | some .months => max (num * 4) 0
  | some .years => max (num * 52) 0
  | none => max num 0

/-- The status transition endpoint (setLoanStatus in
src/controllers/loanController.js lines 710 to 908): identity and role
guards, the pending-to-active weekly installment computation, the metric
events and the collateral auto-deposit. existingAccount is the individual
savings account found for the client, hasAgreement whether a loan agreement
already exists, now the current clock. The agreement creation and the
deposit are modelled by their observable outcome; failure swallowing of the
side effects does not arise in the pure model. -/
def setLoanStatus (userOpt : Option User) (current : Loan) (req : LoanStatus)
    (existingAccount : Option SavingsAcct) (hasAgreement : Bool) (now : ℤ) :
    Except String StatusResult :=
  match userOpt with
  | none => Except.error "Authentication required"
  | some user =>
    if isRestrictedRole user.role && !(ownsLoanB user current) then
      Except.error "Forbidden"
    else if (req == LoanStatus.active) && !(isApproverRole user.role) then
      Except.error "Only admins and branch heads can approve loans"
    else
      let prev := current.status
      let firstActivation := (prev != LoanStatus.active) && (req == LoanStatus.active)
      let l0 := { current with status := req }
      let l1 :=
        if firstActivation && current.disbursementDate.isNone then
          { l0 with disbursementDate := some now }
        else l0
      let weeks := toWeeksQ current.loanDurationNumber current.loanDurationUnit
      let installment := round2 (current.loanAmount * (1 + current.interestRate / 100) / weeks)
      let l2 :=
        if firstActivation && decide (0 < weeks) then
          { l1 with weeklyInstallment := some installment }
        else l1
      let evDate := l2.disbursementDate.getD l2.updatedAt
      let interest := computeInterestForLoan l2
      let interestEvents :=
        if (req == LoanStatus.active) && !(interest == 0) then
          [{ metric := "interestCollected", value := interest, date := evDate, loan := some l2.id }]
        else []
      let distributedValue := if l2.netDisbursedAmount == 0 then l2.loanAmount else l2.netDisbursedAmount
      let disbursementEvents :=
        if (req == LoanStatus.active) && !(l2.loanType == LoanType.group) then
          [{ metric := "loanAmountDistributed", value := distributedValue, date := evDate, loan := some l2.id },
           { metric := "waitingToBeCollected", value := l2.loanAmount, date := evDate, loan := some l2.id }]
        else []
      let agreementCreated := (req == LoanStatus.active) && !hasAgreement
      let collateralAmt := l2.collateralCashAmount
      let doDeposit := (req == LoanStatus.active) && l2.client.isSome && decide (0 < collateralAmt)
      let account0 :=
        match existingAccount with
        | some a => a
        | none =>
          { client := l2.client.getD 0, branchName := l2.branchName, branchCode := l2.branchCode,
            loanCycle := 1, currentBalance := 0, currency := l2.currency, transactions := [] }
      let newBalance := account0.currentBalance + collateralAmt
      let depositTx : SavingsTx :=
        { date := l2.disbursementDate.getD now, savingAmount := collateralAmt, withdrawalAmount := 0,
          balance := newBalance, currency := account0.currency,
          branchName := l2.branchName, branchCode := l2.branchCode }
      let savingsAfter :=
        if doDeposit then
          some { account0 with currentBalance := newBalance,
                               transactions := account0.transactions ++ [depositTx] }
        else existingAccount
      let depositEvents :=
        if doDeposit then
          [{ metric := "collateralCashDeposited", value := collateralAmt,
             date := l2.disbursementDate.getD l2.updatedAt, loan := some l2.id }]
        else []
      Except.ok
        { loan := l2, events := interestEvents ++ disbursementEvents ++ depositEvents,
          savings := savingsAfter, agreementCreated := agreementCreated }

/-- An admin identity used to evaluate the status endpoint. -/
def adminUser : User :=
  { role := "admin", email := "admin@example.com", username := "Admin" }

/-- An already active individual loan with a client and positive collateral
cash, used to evaluate a repeated transition to active. -/
def c2loan : Loan :=
  { id := 2
    branchName := "Main"
    branchCode := "MB"
    createdByEmail := some "officer@example.com"
    loanType := .individual
    group := none
    clients := []
    client := some 21
    loanDurationNumber := some 4
    loanDurationUnit := some .weeks
    disbursementDate := some 100
    collectionStartDate := none
    endingDate := some 128
    weeklyInstallment := some 2750
    loanAmount := 10000
    interestRate := 10
    currency := .LRD
    status := .active
    paymentPlan := some .weekly
    processingFeePercent := some 4
    processingFeeAmount := 400
    formFeeAmount := some 500
    inspectionFeeAmount := some 0
    collateralCashPercent := some 8
    collateralCashAmount := 800
    netDisbursedAmount := 9100
    isReturningClient := false
    loanOfficerName := "Officer A"
    totalRealization := 0
    collections := []
    guarantors := ["G1"]
    totalAmountToBePaid := some 11000
    cashAmountCredited := some 9100
    collateralItemValue := none
    createdAt := 90
    updatedAt := 95 }

/-- The existing empty savings account of the client of c2loan. -/
def c2acct : SavingsAcct :=
  { client := 21, branchName := "Main", branchCode := "MB", loanCycle := 1,
    currentBalance := 0, currency := .LRD, transactions := [] }

/-- C2: requesting the transition to active on a loan that is already active
re-emits the activation metric events (interestCollected,
loanAmountDistributed, waitingToBeCollected, collateralCashDeposited) and
appends another collateral deposit transaction to the savings account of the
client: the controller guards only the weeklyInstallment recomputation by
the previous status, not the metric or deposit blocks, contradicting the
claim that re-entering active applies none of the activation side effects. -/
theorem reactivation_reemits_side_effects :
    c2loan.status = LoanStatus.active ∧
    (setLoanStatus (some adminUser) c2loan LoanStatus.active (some c2acct) true 200).map
        (fun r => (r.events.map (fun e => e.metric), r.savings.map (fun a => a.transactions.length))) =
      Except.ok (["interestCollected", "loanAmountDistributed", "waitingToBeCollected",
        "collateralCashDeposited"], some 1) := by
  have hint : computeInterestForLoan c2loan = 1000 := by
    have h1000 : round2 (1000 : ℚ) = 1000 := by
      rw [round2_int _ 100000 (by norm_num)]
      norm_num
    norm_num [computeInterestForLoan, c2loan, h1000]
  refine ⟨rfl, ?_⟩
  simp +decide [setLoanStatus, isRestrictedRole, isApproverRole, normRole, ownsLoanB,
    adminUser, c2loan, c2acct, Except.map, computeInterestForLoan] at hint ⊢
  simp +decide [hint]

/-- C8 amended: the status endpoint applies no monotonicity restriction: for
every loan and every requested status, an admin request succeeds and the
saved status equals the requested one, so a loan whose status is active,
paid or defaulted can be set back to pending. -/
theorem set_status_assigns_requested_status (u : User) (current : Loan)
    (req : LoanStatus) (acct : Option SavingsAcct) (hasAgr : Bool) (now : ℤ)
    (hrole : u.role = "admin") :
    (setLoanStatus (some u) current req acct hasAgr now).map (fun r => r.loan.status) =
      Except.ok req := by
  have h1 : isRestrictedRole u.role = false := by
    rw [hrole]
    decide
  have h2 : isApproverRole u.role = true := by
    rw [hrole]
    decide
  unfold setLoanStatus
  simp only [h1, h2, Bool.false_and, Bool.not_true, Bool.and_false, if_false, Bool.false_eq_true,
    ite_false, Except.map]
  split <;> split <;> rfl

/-- Witness for the amended C8 theorem: the concrete active loan set back to
pending by an admin. -/
theorem set_status_assigns_requested_status_witness :
    (setLoanStatus (some adminUser) c2loan LoanStatus.pending none true 0).map
        (fun r => r.loan.status) = Except.ok LoanStatus.pending :=
  set_status_assigns_requested_status adminUser c2loan LoanStatus.pending none true 0 rfl

/-- C8 counterexample: the concrete loan c2loan has status active, and a
setLoanStatus request for pending succeeds and stores status pending, so the
lifecycle does transition back to pending. -/
theorem active_loan_can_return_to_pending :
    c2loan.status = LoanStatus.active ∧
    (setLoanStatus (some adminUser) c2loan LoanStatus.pending none true 0).map
        (fun r => r.loan.status) = Except.ok LoanStatus.pending := by
  refine ⟨rfl, ?_⟩
  simp +decide [setLoanStatus, isRestrictedRole, isApproverRole, normRole, ownsLoanB,
    adminUser, c2loan, Except.map]

/-- Modelled from the spec: models/Distribution.js is not under src. A
disbursement tranche per section 3 of the spec: amount, currency (must equal
the loan currency), target member, date, branch tags, and the parent loan
reference, as consumed by src/controllers/distributionController.js. -/
structure Distribution where
  id : ℕ
  loan : ℕ
  group : Option ℕ
  member : Option ℕ
  amount : ℚ
  currency : Currency
  date : ℤ
  branchName : String
  branchCode : String
deriving DecidableEq

/-- One incoming distribution payload entry (body or entries element of
createDistribution in src/controllers/distributionController.js). -/
structure DistEntry where
  amount : ℚ
  currency : Option Currency
  member : Option ℕ
  memberName : Option String
  date : Option ℤ
deriving DecidableEq

/-- The normalize closure of createDistribution
(src/controllers/distributionController.js lines 51 to 85): positive amount,
loan currency enforcement, and borrower restriction when the loan has a
single client. -/
def normalizeDistEntry (loan : Loan) (entryId : ℕ) (now : ℤ) (e : DistEntry) :
    Except String Distribution :=
  if ¬ (0 < e.amount) then Except.error "amount must be greater than 0"
  else
    let payloadCurrency := e.currency.getD loan.currency
    if payloadCurrency ≠ loan.currency then
      Except.error "Distribution currency does not match loan currency"
    else
      let memberId :=
        match loan.client with
        | some c => some c
        | none => e.member
      Except.ok
        { id := entryId, loan := loan.id, group := loan.group, member := memberId,
          amount := e.amount, currency := payloadCurrency, date := e.date.getD now,
          branchName := loan.branchName, branchCode := loan.branchCode }

/-- The metric events of one created distribution
(src/controllers/distributionController.js lines 139 to 168): the raw amount
as loanAmountDistributed, and for group loans the amount plus its rounded
interest share as waitingToBeCollected. -/
def createDistributionEvents (loan : Loan) (d : Distribution) : List MetricEvent :=
  let amount := d.amount
  let interestShare := round2 (amount * loan.interestRate / 100)
  let waitingValue :=
    if loan.loanType == LoanType.group then round2 (amount + interestShare) else amount
  [{ metric := "loanAmountDistributed", value := amount, date := d.date, loan := some loan.id },
   { metric := "waitingToBeCollected", value := waitingValue, date := d.date, loan := some loan.id }]

/-- One createDistribution request for a single entry
(src/controllers/distributionController.js lines 29 to 178): the loan must
be active, the caller an admin or branch head, the entry normalized against
the loan, and the two metric events recorded. -/
def createDistributionSingle (userOpt : Option User) (loan : Loan) (e : DistEntry)
    (entryId : ℕ) (now : ℤ) : Except String (Distribution × List MetricEvent) :=
  if loan.status ≠ LoanStatus.active then
    Except.error "Cannot record distribution for a loan that is not active"
  else
    let role := normRole ((userOpt.map (fun u => u.role)).getD "")
    if ¬ (role = "admin" ∨ role = "branch head") then
      Except.error "Only admins and branch heads can distribute loans"
    else
      match normalizeDistEntry loan entryId now e with
      | Except.error msg => Except.error msg
      | Except.ok d => Except.ok (d, createDistributionEvents loan d)

/-- The compensating events of deleteDistribution
(src/controllers/distributionController.js lines 342 to 369): the negated
amount, with the same group interest adjustment applied to the negated
value; the parent loan may be gone. -/
def deleteDistributionEvents (loanOpt : Option Loan) (d : Distribution) : List MetricEvent :=
  let value := -d.amount
  let waitingValue :=
    match loanOpt with
    | some loan =>
      if loan.loanType == LoanType.group then
        round2 (value + round2 (value * loan.interestRate / 100))
      else value
    | none => value
  [{ metric := "loanAmountDistributed", value := value, date := d.date, loan := some d.loan },
   { metric := "waitingToBeCollected", value := waitingValue, date := d.date, loan := some d.loan }]

/-- The distribution replay of the recalculation engine
(src/utils/recalcMetrics.js lines 163 to 187): nonpositive amounts are
skipped, and both events carry the raw amount with no interest adjustment. -/
def distRecalcEvents (d : Distribution) : List MetricEvent :=
  if ¬ (0 < d.amount) then []
  else
    [{ metric := "loanAmountDistributed", value := d.amount, date := d.date, loan := some d.loan },
     { metric := "waitingToBeCollected", value := d.amount, date := d.date, loan := some d.loan }]

/-- Aggregate balance of one metric over a store: the sum of the signed
values of its events. -/
def metricSum (m : String) (s : List MetricEvent) : ℚ :=
  ((s.filter (fun e => e.metric == m)).map (fun e => e.value)).sum

/-- An active group loan with interest rate 3, used for the distribution
scenarios. -/
def g3loan : Loan :=
  { id := 3
    branchName := "Main"
    branchCode := "MB"
    createdByEmail := some "officer@example.com"
    loanType := .group
    group := some 31
    clients := [61, 62]
    client := none
    loanDurationNumber := some 12
    loanDurationUnit := some .weeks
    disbursementDate := some 100
    collectionStartDate := none
    endingDate := some 184
    weeklyInstallment := none
    loanAmount := 20000
    interestRate := 3
    currency := .LRD
    status := .active
    paymentPlan := some .weekly
    processingFeePercent := some 3
    processingFeeAmount := 600
    formFeeAmount := some 200
    inspectionFeeAmount := some 0
    collateralCashPercent := some 8
    collateralCashAmount := 1600
    netDisbursedAmount := 19200
    isReturningClient := false
    loanOfficerName := "Officer A"
    totalRealization := 0
    collections := []
    guarantors := []
    totalAmountToBePaid := some 20600
    cashAmountCredited := some 19200
    collateralItemValue := none
    createdAt := 90
    updatedAt := 95 }

/-- A payload entry distributing 5000 in the loan currency. -/
def entry5000 : DistEntry :=
  { amount := 5000, currency := some .LRD, member := none, memberName := none, date := some 120 }

/-- The stored distribution the entry produces. -/
def d5000 : Distribution :=
  { id := 7, loan := 3, group := some 31, member := none, amount := 5000,
    currency := .LRD, date := 120, branchName := "Main", branchCode := "MB" }

/-- C3: on the active group loan with interest rate 3, recording a 5000
distribution emits waitingToBeCollected 5150 (5000 plus the rounded 3
percent share), deleting it emits waitingToBeCollected minus 5150 (not minus
5000), and the two waiting events cancel to zero. -/
theorem group_distribution_interest_events :
    (createDistributionSingle (some adminUser) g3loan entry5000 7 200).map
        (fun r => r.2.map (fun e => (e.metric, e.value))) =
      Except.ok [("loanAmountDistributed", (5000 : ℚ)), ("waitingToBeCollected", (5150 : ℚ))] ∧
    (deleteDistributionEvents (some g3loan) d5000).map (fun e => (e.metric, e.value)) =
      [("loanAmountDistributed", (-5000 : ℚ)), ("waitingToBeCollected", (-5150 : ℚ))] ∧
    metricSum "waitingToBeCollected"
      (createDistributionEvents g3loan d5000 ++ deleteDistributionEvents (some g3loan) d5000) = 0 := by
  have h150 : round2 (150 : ℚ) = 150 := by
    rw [round2_int _ 15000 (by norm_num)]
    norm_num
  have h5150 : round2 (5150 : ℚ) = 5150 := by
    rw [round2_int _ 515000 (by norm_num)]
    norm_num
  have hm150 : round2 (-150 : ℚ) = -150 := by
    rw [round2_int _ (-15000) (by norm_num)]
    norm_num
  have hm5150 : round2 (-5150 : ℚ) = -5150 := by
    rw [round2_int _ (-515000) (by norm_num)]
    norm_num
  refine ⟨?_, ?_, ?_⟩ <;>
    (simp +decide [createDistributionSingle, normalizeDistEntry, createDistributionEvents,
        deleteDistributionEvents, metricSum, normRole, lowerStr, trimStr, lowerChar, isWsChar,
        adminUser, g3loan, entry5000, d5000, Except.map] <;>
      norm_num [h150, h5150, hm150, hm5150])

/-- C4: the live distribution path and the recalculation replay disagree on
group loans: for the 5000 distribution on the group loan with interest rate
3, the live path records waitingToBeCollected 5150 while the replay records
5000, so recalculation does not reproduce the live aggregate. -/
theorem recalc_drops_group_interest_share :
    g3loan.loanType = LoanType.group ∧
    metricSum "waitingToBeCollected" (createDistributionEvents g3loan d5000) = 5150 ∧
    metricSum "waitingToBeCollected" (distRecalcEvents d5000) = 5000 ∧
    metricSum "waitingToBeCollected" (createDistributionEvents g3loan d5000) ≠
      metricSum "waitingToBeCollected" (distRecalcEvents d5000) := by
  have h150 : round2 (150 : ℚ) = 150 := by
    rw [round2_int _ 15000 (by norm_num)]
    norm_num
  have h5150 : round2 (5150 : ℚ) = 5150 := by
    rw [round2_int _ 515000 (by norm_num)]
    norm_num
  have hlive : metricSum "waitingToBeCollected" (createDistributionEvents g3loan d5000) = 5150 := by
    simp +decide [createDistributionEvents, metricSum, g3loan, d5000] <;>
      norm_num [h150, h5150]
  have hreplay : metricSum "waitingToBeCollected" (distRecalcEvents d5000) = 5000 := by
    simp +decide [distRecalcEvents, metricSum, d5000]
  refine ⟨rfl, hlive, hreplay, ?_⟩
  rw [hlive, hreplay]
  norm_num

/-- The loan-derived metric names the recalculation first deletes
(src/utils/recalcMetrics.js lines 12 to 24). -/
def loanMetricNames : List String :=
  ["loanAmountDistributed", "waitingToBeCollected", "overdue", "interestCollected",
   "totalCollectionsCollected", "totalCollateral", "collateralCashRequired", "totalFormFees",
   "totalInspectionFees", "totalProcessingFees", "collateralCashDeposited"]

/-- Whether an event belongs to the loan-derived metrics the recalculation
deletes and replays. -/
def isLoanDerived (e : MetricEvent) : Bool := loanMetricNames.contains e.metric

/-- Conditional event list: the events when the condition holds, nothing
otherwise (each push in the recalculation sits under such a guard). -/
def iteEvents (c : Prop) [Decidable c] (evs : List MetricEvent) : List MetricEvent :=
  if c then evs else []

lemma mem_iteEvents {c : Prop} [inst : Decidable c] {evs : List MetricEvent} {e : MetricEvent}
    (h : e ∈ iteEvents c evs) : e ∈ evs := by
  unfold iteEvents at h
  split at h
  · exact h
  · exact absurd h (List.not_mem_nil e)

/-- Creation-time fee replay of one loan (src/utils/recalcMetrics.js lines 54
to 73): collateral value, collateral cash required, form, inspection and
processing fees, each only when nonzero, dated by disbursement date falling
back to createdAt. -/
def feeRecalcEvents (l : Loan) : List MetricEvent :=
  let creationDate := l.disbursementDate.getD l.createdAt
  iteEvents (collateralValueFromLoan l ≠ 0)
    [{ metric := "totalCollateral", value := collateralValueFromLoan l, date := creationDate, loan := some l.id }] ++
  iteEvents (l.collateralCashAmount ≠ 0)
    [{ metric := "collateralCashRequired", value := l.collateralCashAmount, date := creationDate, loan := some l.id }] ++
  iteEvents (l.formFeeAmount.getD 0 ≠ 0)
    [{ metric := "totalFormFees", value := l.formFeeAmount.getD 0, date := creationDate, loan := some l.id }] ++
  iteEvents (l.inspectionFeeAmount.getD 0 ≠ 0)
    [{ metric := "totalInspectionFees", value := l.inspectionFeeAmount.getD 0, date := creationDate, loan := some l.id }] ++
  iteEvents (l.processingFeeAmount ≠ 0)
    [{ metric := "totalProcessingFees", value := l.processingFeeAmount, date := creationDate, loan := some l.id }]

/-- Activation replay of one loan (src/utils/recalcMetrics.js lines 75 to
118): for loans that ever left pending, the planned interest, for non-group
loans the disbursement and initial waiting balance, and the collateral
deposit when a client and positive collateral exist. The new-Date fallback
of the source is unreachable because updatedAt is always set. -/
def activationRecalcEvents (l : Loan) : List MetricEvent :=
  let activationDate := l.disbursementDate.getD l.updatedAt
  iteEvents (l.status = .active ∨ l.status = .paid ∨ l.status = .defaulted)
    (iteEvents (computeInterestForLoan l ≠ 0)
      [{ metric := "interestCollected", value := computeInterestForLoan l, date := activationDate, loan := some l.id }] ++
     iteEvents (l.loanType ≠ .group)
      [{ metric := "loanAmountDistributed",
         value := if l.netDisbursedAmount = 0 then l.loanAmount else l.netDisbursedAmount,
         date := activationDate, loan := some l.id },
       { metric := "waitingToBeCollected", value := l.loanAmount, date := activationDate, loan := some l.id }] ++
     iteEvents (0 < l.collateralCashAmount ∧ l.client.isSome)
      [{ metric := "collateralCashDeposited", value := l.collateralCashAmount, date := activationDate, loan := some l.id }])

/-- Collection replay of one embedded collection entry
(src/utils/recalcMetrics.js lines 120 to 156). -/
def collectionRecalcEvents (l : Loan) (col : Collection) : List MetricEvent :=
  let collected := col.fieldCollection
  let overdueVal := max (col.weeklyAmount - collected) 0
  iteEvents (collected ≠ 0)
    [{ metric := "totalCollectionsCollected", value := collected, date := col.collectionDate, loan := some l.id },
     { metric := "waitingToBeCollected", value := -collected, date := col.collectionDate, loan := some l.id }] ++
  iteEvents (0 < overdueVal)
    [{ metric := "overdue", value := overdueVal, date := col.collectionDate, loan := some l.id }]

/-- All replayed events of one loan. -/
def loanRecalcEvents (l : Loan) : List MetricEvent :=
  feeRecalcEvents l ++ activationRecalcEvents l ++ l.collections.flatMap (collectionRecalcEvents l)

/-- The full replay: every loan in creation order, then every distribution
(src/utils/recalcMetrics.js lines 43 to 187). The batching into recordMany
chunks of 50 only bounds memory and does not change the resulting store. -/
def recalcReplayEvents (loans : List Loan) (dists : List Distribution) : List MetricEvent :=
  (loans.flatMap loanRecalcEvents) ++ (dists.flatMap distRecalcEvents)

/-- recalculateAllMetrics (src/utils/recalcMetrics.js lines 7 to 192):
delete every loan-derived event from the store, keeping manual metrics such
as expenses, then append the deterministic replay of the current Loan and
Distribution state. -/
def recalculateAllMetrics (store : List MetricEvent) (loans : List Loan)
    (dists : List Distribution) : List MetricEvent :=
  (store.filter (fun e => !(isLoanDerived e))) ++ recalcReplayEvents loans dists

lemma feeRecalc_loanDerived (l : Loan) :
    ∀ e ∈ feeRecalcEvents l, isLoanDerived e = true := by
  intro e he
  unfold feeRecalcEvents at he
  simp only [List.mem_append] at he
  rcases he with ((((h | h) | h) | h) | h) <;>
    (rw [List.mem_singleton.1 (mem_iteEvents h)]; rfl)

lemma activationRecalc_loanDerived (l : Loan) :
    ∀ e ∈ activationRecalcEvents l, isLoanDerived e = true := by
  intro e he
  unfold activationRecalcEvents at he
  have h1 := mem_iteEvents he
  simp only [List.mem_append] at h1
  rcases h1 with (h | h) | h
  · rw [List.mem_singleton.1 (mem_iteEvents h)]
    rfl
  · have h2 := mem_iteEvents h
    simp only [List.mem_cons, List.not_mem_nil, or_false] at h2
    rcases h2 with rfl | rfl <;> rfl
  · rw [List.mem_singleton.1 (mem_iteEvents h)]
    rfl

lemma collectionRecalc_loanDerived (l : Loan) (col : Collection) :
    ∀ e ∈ collectionRecalcEvents l col, isLoanDerived e = true := by
  intro e he
  unfold collectionRecalcEvents at he
  simp only [List.mem_append] at he
  rcases he with h | h
  · have h2 := mem_iteEvents h
    simp only [List.mem_cons, List.not_mem_nil, or_false] at h2
    rcases h2 with rfl | rfl <;> rfl
  · rw [List.mem_singleton.1 (mem_iteEvents h)]
    rfl

lemma distRecalc_loanDerived (d : Distribution) :
    ∀ e ∈ distRecalcEvents d, isLoanDerived e = true := by
  intro e he
  unfold distRecalcEvents at he
  split at he
  · exact absurd he (List.not_mem_nil e)
  · simp only [List.mem_cons, List.not_mem_nil, or_false] at he
    rcases he with rfl | rfl <;> rfl

lemma replay_loanDerived (loans : List Loan) (dists : List Distribution) :
    ∀ e ∈ recalcReplayEvents loans dists, isLoanDerived e = true := by
  intro e he
  unfold recalcReplayEvents at he
  simp only [List.mem_append, List.mem_flatMap] at he
  rcases he with ⟨l, _, hl⟩ | ⟨d, _, hd⟩
  · unfold loanRecalcEvents at hl
    simp only [List.mem_append, List.mem_flatMap] at hl
    rcases hl with (h | h) | ⟨col, _, h⟩
    · exact feeRecalc_loanDerived l e h
    · exact activationRecalc_loanDerived l e h
    · exact collectionRecalc_loanDerived l col e h
  · exact distRecalc_loanDerived d e hd

lemma recalc_store_idempotent (store : List MetricEvent) (loans : List Loan)
    (dists : List Distribution) :
    recalculateAllMetrics (recalculateAllMetrics store loans dists) loans dists =
      recalculateAllMetrics store loans dists := by
  unfold recalculateAllMetrics
  have hnil : (recalcReplayEvents loans dists).filter (fun e => !(isLoanDerived e)) = [] := by
    rw [List.filter_eq_nil_iff]
    intro e he
    rw [replay_loanDerived loans dists e he]
    simp
  rw [List.filter_append, hnil, List.append_nil, List.filter_filter]
  simp only [Bool.and_self]

/-- C5: running recalculateAllMetrics twice in a row over the same Loan and
Distribution state yields identical per-metric aggregate sums: the second
run deletes exactly the loan-derived events the first run replayed and
replays them identically, so the stores and their metric balances agree. -/
theorem recalc_idempotent_on_metric_sums (store : List MetricEvent) (loans : List Loan)
    (dists : List Distribution) (m : String) :
    metricSum m (recalculateAllMetrics (recalculateAllMetrics store loans dists) loans dists) =
      metricSum m (recalculateAllMetrics store loans dists) := by
  rw [recalc_store_idempotent]

/-- One incoming collection payload (body of addCollection or an element of
entries in addCollectionsBatch, src/controllers/loanController.js). -/
structure CollectionEntry where
  memberName : Option String
  loanAmount : Option ℚ
  weeklyAmount : Option ℚ
  fieldCollection : Option ℚ
  advancePayment : Option ℚ
  fieldBalance : Option ℚ
  currency : Option Currency
  collectionDate : Option ℤ
deriving DecidableEq

/-- One schedule step of the due-date walk: weekly adds 7 days, bi-weekly 14,
monthly applies the calendar month step of the Date library (passed in as
addMonth). -/
def stepDate (plan : PaymentPlan) (addMonth : ℤ → ℤ) (d : ℤ) : ℤ :=
  match plan with
  | .weekly => d + 7
  | .biWeekly => d + 14
  | .monthly => addMonth d

/-- The date-stepping loop of calcPeriods (src/controllers/loanController.js
lines 479 to 489 and 609 to 618): while current is at most the ending date
and fewer than 500 steps were taken, step and count. The fuel of 500 equals
the runaway cap, so the recursion is exactly the source loop. -/
def datePeriodLoop (plan : PaymentPlan) (addMonth : ℤ → ℤ) (endD : ℤ) :
    ℕ → ℤ → ℕ → ℕ
  | 0, _, i => i
  | fuel + 1, current, i =>
    if current ≤ endD ∧ i < 500 then
      datePeriodLoop plan addMonth endD fuel (stepDate plan addMonth current) (i + 1)
    else i

/-- The month count the monthly fallback derives from the duration fields
(src/controllers/loanController.js lines 494 to 504 and 623 to 633). -/
def monthsFromDuration (n : Option ℚ) (u : Option DurationUnit) (weeks : ℚ) : ℚ :=
  let num := n.getD 0
  match u.getD .weeks with
  | .days => max (⌈num / 30⌉ : ℚ) 0
  | .weeks => max (⌈weeks / 4⌉ : ℚ) 0
  | .months => max num 0
  | .years => max (num * 12) 0

/-- The formula branch of calcPeriods: weekly uses the weeks-equivalent,
bi-weekly its ceiled half, monthly the separately derived month count. -/
def calcPeriodsFormula (l : Loan) : ℚ :=
  let plan := l.paymentPlan.getD .weekly
  let weeks := toWeeksQ l.loanDurationNumber l.loanDurationUnit
  match plan with
  | .weekly => weeks
  | .biWeekly => max (⌈weeks / 2⌉ : ℚ) 0
  | .monthly => monthsFromDuration l.loanDurationNumber l.loanDurationUnit weeks

/-- calcPeriods of addCollection (src/controllers/loanController.js lines 476
to 505): the date walk applies only when no collectionStartDate is set and
both the disbursement and ending dates exist; otherwise the formula branch. -/
def calcPeriodsSingle (l : Loan) (addMonth : ℤ → ℤ) : ℚ :=
  let plan := l.paymentPlan.getD .weekly
  match l.collectionStartDate, l.disbursementDate, l.endingDate with
  | none, some s, some e => (datePeriodLoop plan addMonth e 500 s 0 : ℚ)
  | _, _, _ => calcPeriodsFormula l

/-- calcPeriods of addCollectionsBatch (src/controllers/loanController.js
lines 606 to 634): the date walk applies whenever a start (collection start
or disbursement) and an ending date exist. -/
def calcPeriodsBatch (l : Loan) (addMonth : ℤ → ℤ) : ℚ :=
  let plan := l.paymentPlan.getD .weekly
  let start := l.collectionStartDate.or l.disbursementDate
  match start, l.endingDate with
  | some s, some e => (datePeriodLoop plan addMonth e 500 s 0 : ℚ)
  | _, _ => calcPeriodsFormula l

/-- Total repayable of a loan: principal grossed up by the interest rate. -/
def totalWithInterest (l : Loan) : ℚ := l.loanAmount * (1 + l.interestRate / 100)

/-- The period count addCollection divides by, floored at one
(src/controllers/loanController.js line 506). -/
def addCollectionPeriods (l : Loan) (addMonth : ℤ → ℤ) : ℚ :=
  max (calcPeriodsSingle l addMonth) 1

/-- The defaulted per-period amount of addCollection
(src/controllers/loanController.js line 507). -/
def addCollectionExpected (l : Loan) (addMonth : ℤ → ℤ) : ℚ :=
  if 0 < addCollectionPeriods l addMonth then
    totalWithInterest l / addCollectionPeriods l addMonth
  else 0

/-- The period count addCollectionsBatch divides by, floored at one
(src/controllers/loanController.js line 635). -/
def addCollectionsBatchPeriods (l : Loan) (addMonth : ℤ → ℤ) : ℚ :=
  max (calcPeriodsBatch l addMonth) 1

/-- The defaulted per-period amount of addCollectionsBatch
(src/controllers/loanController.js line 636). -/
def addCollectionsBatchExpected (l : Loan) (addMonth : ℤ → ℤ) : ℚ :=
  if 0 < addCollectionsBatchPeriods l addMonth then
    totalWithInterest l / addCollectionsBatchPeriods l addMonth
  else 0

/-- The restricted-role ownership guard shared by the collection endpoints:
only a present restricted identity that does not own the loan is refused. -/
def restrictedGuardFails (userOpt : Option User) (l : Loan) : Bool :=
  match userOpt with
  | some u => isRestrictedRole u.role && !(ownsLoanB u l)
  | none => false

/-- addCollection (src/controllers/loanController.js lines 450 to 573):
ownership guard, schedule-aware defaulting of the entry fields, currency
enforcement before any mutation, the ledger append with the realized-total
increment, and the per-entry metric event triple. clientName is the member
name resolved from the single client when the payload carries none. An
error result models the rejected request: the loan document is never saved
and recordMany never runs. -/
def addCollection (userOpt : Option User) (loan : Loan) (body : CollectionEntry)
    (clientName : Option String) (addMonth : ℤ → ℤ) (now : ℤ) :
    Except String (Loan × List MetricEvent) :=
  if restrictedGuardFails userOpt loan then Except.error "Forbidden"
  else
    let expectedWeekly := addCollectionExpected loan addMonth
    let currency := body.currency.getD loan.currency
    if currency ≠ loan.currency then
      Except.error "Collection currency does not match loan currency"
    else
      let weeklyAmount :=
        if body.weeklyAmount.getD 0 ≠ 0 then body.weeklyAmount.getD 0 else expectedWeekly
      let fieldCollection := body.fieldCollection.getD 0
      let advancePayment := body.advancePayment.getD 0
      let fieldBalance :=
        match body.fieldBalance with
        | none => max (weeklyAmount - fieldCollection - advancePayment) 0
        | some v => v
      let m0 := body.memberName.getD ""
      let memberName := if m0 ≠ "" then m0 else (if loan.client.isSome then clientName.getD "" else "")
      let record : Collection :=
        { memberName := memberName,
          loanAmount := if body.loanAmount.getD 0 ≠ 0 then body.loanAmount.getD 0 else weeklyAmount,
          weeklyAmount := weeklyAmount,
          fieldCollection := fieldCollection,
          advancePayment := advancePayment,
          fieldBalance := fieldBalance,
          currency := currency,
          collectionDate := body.collectionDate.getD now }
      let updated :=
        { loan with collections := loan.collections ++ [record],
                    totalRealization := loan.totalRealization + record.fieldCollection }
      let overdueVal := max (record.weeklyAmount - record.fieldCollection) 0
      let events :=
        [{ metric := "totalCollectionsCollected", value := record.fieldCollection,
           date := record.collectionDate, loan := some loan.id },
         { metric := "waitingToBeCollected", value := -record.fieldCollection,
           date := record.collectionDate, loan := some loan.id }] ++
        iteEvents (0 < overdueVal)
          [{ metric := "overdue", value := overdueVal, date := record.collectionDate, loan := some loan.id }]
      Except.ok (updated, events)

/-- The entry loop of addCollectionsBatch (src/controllers/loanController.js
lines 638 to 670): each entry is checked against the loan currency and
normalized into a record; the first mismatch aborts the whole request, so
nothing is saved. Returns the records and the realized-total increment. -/
def buildBatchRecords (loan : Loan) (expectedWeekly : ℚ) (clientName : Option String)
    (now : ℤ) : List CollectionEntry → Except String (List Collection × ℚ)
  | [] => Except.ok ([], 0)
  | e :: rest =>
    let currency := e.currency.getD loan.currency
    if currency ≠ loan.currency then
      Except.error "Collection currency does not match loan currency"
    else
      let weeklyAmount :=
        if e.weeklyAmount.getD 0 ≠ 0 then e.weeklyAmount.getD 0 else expectedWeekly
      let fieldCollection := e.fieldCollection.getD 0
      let advancePayment := e.advancePayment.getD 0
      let fieldBalance :=
        match e.fieldBalance with
        | none => max (weeklyAmount - fieldCollection - advancePayment) 0
        | some v => v
      let m0 := e.memberName.getD ""
      let memberName := if m0 ≠ "" then m0 else (if loan.client.isSome then clientName.getD "" else "")
      let record : Collection :=
        { memberName := memberName,
          loanAmount := if e.loanAmount.getD 0 ≠ 0 then e.loanAmount.getD 0 else weeklyAmount,
          weeklyAmount := weeklyAmount,
          fieldCollection := fieldCollection,
          advancePayment := advancePayment,
          fieldBalance := fieldBalance,
          currency := currency,
          collectionDate := e.collectionDate.getD now }
      match buildBatchRecords loan expectedWeekly clientName now rest with
      | Except.error msg => Except.error msg
      | Except.ok (recs, total) => Except.ok (record :: recs, record.fieldCollection + total)

/-- The metric event triple of one raw batch entry
(src/controllers/loanController.js lines 676 to 698): the batch metrics loop
reads the raw entries, so a missing weeklyAmount counts as zero here. -/
def batchEntryEvents (loan : Loan) (now : ℤ) (e : CollectionEntry) : List MetricEvent :=
  let collected := e.fieldCollection.getD 0
  let overdueVal := max (e.weeklyAmount.getD 0 - collected) 0
  let d := e.collectionDate.getD now
  [{ metric := "totalCollectionsCollected", value := collected, date := d, loan := some loan.id },
   { metric := "waitingToBeCollected", value := -collected, date := d, loan := some loan.id }] ++
  iteEvents (0 < overdueVal)
    [{ metric := "overdue", value := overdueVal, date := d, loan := some loan.id }]

/-- addCollectionsBatch (src/controllers/loanController.js lines 575 to 708):
entries must be nonempty, the ownership guard must pass, every entry must
match the loan currency, then one ledger append plus one realized-total
increment and one event triple per entry. -/
def addCollectionsBatch (userOpt : Option User) (loan : Loan)
    (entries : List CollectionEntry) (clientName : Option String)
    (addMonth : ℤ → ℤ) (now : ℤ) : Except String (Loan × List MetricEvent) :=
  if entries = [] then Except.error "entries array is required"
  else if restrictedGuardFails userOpt loan then Except.error "Forbidden"
  else
    let expectedWeekly := addCollectionsBatchExpected loan addMonth
    match buildBatchRecords loan expectedWeekly clientName now entries with
    | Except.error msg => Except.error msg
    | Except.ok (recs, totalAdd) =>
      let updated :=
        { loan with collections := loan.collections ++ recs,
                    totalRealization := loan.totalRealization + totalAdd }
      Except.ok (updated, entries.flatMap (batchEntryEvents loan now))

lemma buildBatchRecords_error (loan : Loan) (expectedWeekly : ℚ)
    (clientName : Option String) (now : ℤ) (entries : List CollectionEntry)
    (hex : ∃ e ∈ entries, e.currency.getD loan.currency ≠ loan.currency) :
    buildBatchRecords loan expectedWeekly clientName now entries =
      Except.error "Collection currency does not match loan currency" := by
  induction entries with
  | nil =>
    rcases hex with ⟨e, he, _⟩
    exact absurd he (List.not_mem_nil e)
  | cons a rest ih =>
    unfold buildBatchRecords
    by_cases hA : a.currency.getD loan.currency ≠ loan.currency
    · rw [if_pos hA]
    · rw [if_neg hA]
      have hrest : ∃ e ∈ rest, e.currency.getD loan.currency ≠ loan.currency := by
        rcases hex with ⟨e, he, hp⟩
        rcases List.mem_cons.1 he with rfl | hr
        · exact absurd hp hA
        · exact ⟨e, hr, hp⟩
      rw [ih hrest]

/-- C9: a collection whose payload currency differs from the loan currency is
rejected by addCollection, and a batch containing such an entry is rejected
by addCollectionsBatch; in the model the error result carries no updated
loan and no events, mirroring that the source returns before the save and
before recordMany, so the persisted loan and the metric store are
unchanged. -/
theorem collection_currency_mismatch_rejected (loan : Loan) (body : CollectionEntry)
    (entries : List CollectionEntry) (e : CollectionEntry) (c c' : Currency)
    (clientName : Option String) (addMonth : ℤ → ℤ) (now : ℤ)
    (hbc : body.currency = some c) (hbne : c ≠ loan.currency)
    (hmem : e ∈ entries) (hec : e.currency = some c') (hene : c' ≠ loan.currency) :
    addCollection none loan body clientName addMonth now =
      Except.error "Collection currency does not match loan currency" ∧
    addCollectionsBatch none loan entries clientName addMonth now =
      Except.error "Collection currency does not match loan currency" := by
  constructor
  · unfold addCollection restrictedGuardFails
    rw [if_neg (by simp)]
    rw [hbc]
    rw [if_pos (by simpa using hbne)]
  · unfold addCollectionsBatch restrictedGuardFails
    have hne : entries ≠ [] := by
      intro hnil
      rw [hnil] at hmem
      exact absurd hmem (List.not_mem_nil e)
    rw [if_neg hne]
    rw [if_neg (by simp)]
    dsimp only
    rw [buildBatchRecords_error loan _ clientName now entries ⟨e, hmem, by rw [hec]; simpa using hene⟩]

/-- A mismatching payload entry in USD against the LRD loan c2loan. -/
def usdEntry : CollectionEntry :=
  { memberName := none, loanAmount := none, weeklyAmount := some 550,
    fieldCollection := some 300, advancePayment := none, fieldBalance := none,
    currency := some .USD, collectionDate := some 130 }

/-- Witness for C9: the USD entry against the LRD loan is rejected on both
paths. -/
theorem collection_currency_mismatch_rejected_witness :
    addCollection none c2loan usdEntry none (fun d => d) 0 =
      Except.error "Collection currency does not match loan currency" ∧
    addCollectionsBatch none c2loan [usdEntry] none (fun d => d) 0 =
      Except.error "Collection currency does not match loan currency" :=
  collection_currency_mismatch_rejected c2loan usdEntry [usdEntry] usdEntry
    Currency.USD Currency.USD none (fun d => d) 0 rfl (by decide)
    (List.mem_singleton.2 rfl) rfl (by decide)

/-- C10: the period count both collection endpoints divide by is floored at
one before the division, so for every loan state, including zero or absent
durations and missing schedule dates, the defaulted per-period amount is the
exact quotient of the total with interest by a count of at least one: no
division by zero and always a finite rational. -/
theorem collection_periods_floored_at_one (loan : Loan) (addMonth : ℤ → ℤ) :
    1 ≤ addCollectionPeriods loan addMonth ∧
    addCollectionExpected loan addMonth * addCollectionPeriods loan addMonth =
      totalWithInterest loan ∧
    1 ≤ addCollectionsBatchPeriods loan addMonth ∧
    addCollectionsBatchExpected loan addMonth * addCollectionsBatchPeriods loan addMonth =
      totalWithInterest loan := by
  have h1 : (1 : ℚ) ≤ addCollectionPeriods loan addMonth := le_max_right _ _
  have h2 : (1 : ℚ) ≤ addCollectionsBatchPeriods loan addMonth := le_max_right _ _
  have h1pos : (0 : ℚ) < addCollectionPeriods loan addMonth := lt_of_lt_of_le one_pos h1
  have h2pos : (0 : ℚ) < addCollectionsBatchPeriods loan addMonth := lt_of_lt_of_le one_pos h2
  refine ⟨h1, ?_, h2, ?_⟩
  · rw [addCollectionExpected, if_pos h1pos]
    exact div_mul_cancel₀ _ (ne_of_gt h1pos)
  · rw [addCollectionsBatchExpected, if_pos h2pos]
    exact div_mul_cancel₀ _ (ne_of_gt h2pos)

end GodGrace
